import Mathlib

/-!
Shallow embedding of the two microservices of the `large-events` repository:
the events service (`events/app.py`) and the users service (`users/app.py`).

Store documents are association lists of field names to values; the MongoDB
collection handle is an `Option`, where `none` models the never-established
handle (the events service installs a `Thrower` sentinel whose every attribute
access raises `DBNotConnectedError`).  Each route handler is a pure function
from the request data and the store state to a result of type
`Except PyError Response` (an `Except.error` is an exception that escapes the
handler unhandled), the store state after the request, and the trace of store
operations actually executed.
-/

namespace LargeEvents

/-- JSON-like field values stored in documents and returned on the wire. -/
inductive Value where
  | str (s : String)
  | bool (b : Bool)
  | objectId (id : String)
deriving DecidableEq

/-- A stored document: an association list of field names to values
(a Python `dict`). -/
abbrev Doc := List (String × Value)

/-- Dictionary lookup, `d[k]` on a Python dict built with unique keys. -/
def lookupDoc (d : Doc) (k : String) : Option Value :=
  List.lookup k d

/-- Form and query-string access: `request.form[k]` / `request.args[k]`
return the first value bound to `k`; `none` models the `BadRequestKeyError`
raised when the key is absent, and `request.form.get(k)` returning `None`. -/
def lookupArg (form : List (String × String)) (k : String) : Option String :=
  List.lookup k form

/-- Python exceptions that can cross a route-handler boundary. -/
inductive PyError where
  | dbNotConnected
  | invalidId (s : String)
  | attributeError (n : String)
  | connectionFailure
deriving DecidableEq

/-! ## Events service: store model -/

/-- The filters the events service passes to `collection.find`:
`{}`, `{'_id': ObjectId(event_id)}`, and `{'$text': {'$search': name}}`. -/
inductive MongoFilter where
  | all
  | byId (id : String)
  | text (query : String)
deriving DecidableEq

/-- A store operation actually executed against the events collection. -/
inductive StoreOp where
  | find (f : MongoFilter)
  | createIndex (keys : List (String × String))
  | insertOne (d : Doc)
deriving DecidableEq

/-- The events collection: its documents plus the set of created indexes. -/
structure EventsColl where
  docs : List Doc
  indexes : List (List (String × String))
deriving DecidableEq

/-- The process-wide collection handle (`app.config['COLLECTION']`).
`none` models the `Thrower` sentinel installed when `MONGODB_URI` is missing:
every attribute access on it raises `DBNotConnectedError`, so no store
operation is ever executed through it. -/
abbrev EventsStore := Option EventsColl

/-- The `create_index([('name', 'text')])` call on the store state: MongoDB
index creation is idempotent, creating the index only when absent. -/
def createIndexState (c : EventsColl) (keys : List (String × String)) : EventsColl :=
  if keys ∈ c.indexes then c else { c with indexes := c.indexes ++ [keys] }

/-- Modelled from the spec: MongoDB text search is an out-of-scope black-box
store capability (spec section 1); it is modelled as a filter on the `name`
field that is insensitive to case, matching documents sharing a word with
the query.  No claim depends on the match predicate itself. -/
def textMatches (query : String) (d : Doc) : Bool :=
  match lookupDoc d "name" with
  | some (.str s) =>
      (s.toLower.splitOn " ").any (fun w => (query.toLower.splitOn " ").contains w)
  | _ => false

/-! ## Events service: the `Event` entity and result projection -/

/-- Modelled from the spec: the `Event` entity class (`eventclass.py`) is not
under `src/`.  Per spec sections 3 and 4.3 the entity declares the business
fields name, description, author, event_time and created_at plus the opaque
server-assigned identity, and a document is round-tripped through exactly
this field set. -/
def eventFields : List String :=
  ["_id", "name", "description", "author", "event_time", "created_at"]

/-- Modelled from the spec: `Event(**ev).dict` round-trips a document through
the entity's declared field set, implicitly dropping any field not declared
in the data model (spec section 4.3). -/
def eventDict (d : Doc) : Doc :=
  d.filter (fun kv => decide (kv.1 ∈ eventFields))

/-- The events-service `build_event_info(info, time)` helper: returns
`{**info, 'created_at': time}`. -/
def build_event_info (info : Doc) (time : String) : Doc :=
  info ++ [("created_at", Value.str time)]

/-- The response envelope `{'events': [...], 'num_events': N}`. -/
structure EventsDict where
  events : List Doc
  num_events : Nat
deriving DecidableEq

/-- The events-service `build_events_dict(events_cursor)` helper: shapes each
document through the `Event` entity and wraps the list with its length. -/
def build_events_dict (events_cursor : List Doc) : EventsDict :=
  let events_list := events_cursor.map eventDict
  { events := events_list, num_events := events_list.length }

/-! ## Server clock and timestamp formatting -/

/-- A UTC wall-clock instant as `datetime.datetime.utcnow()` observes it,
truncated to seconds.  Python guarantees `1 <= year <= 9999`,
`1 <= month <= 12`, and so on; the formatting below is faithful on that
domain. -/
structure Timestamp where
  year : Nat
  month : Nat
  day : Nat
  hour : Nat
  minute : Nat
  second : Nat
deriving DecidableEq

/-- The decimal digit character for `n % 10`. -/
def digitChar (n : Nat) : Char :=
  Char.ofNat (48 + n % 10)

/-- The character list of
`datetime.isoformat(sep=' ', timespec='seconds')`: zero-padded decimal
fields in the shape `YYYY-MM-DD HH:MM:SS`. -/
def isoChars (t : Timestamp) : List Char :=
  [digitChar (t.year / 1000), digitChar (t.year / 100),
   digitChar (t.year / 10), digitChar t.year, '-',
   digitChar (t.month / 10), digitChar t.month, '-',
   digitChar (t.day / 10), digitChar t.day, ' ',
   digitChar (t.hour / 10), digitChar t.hour, ':',
   digitChar (t.minute / 10), digitChar t.minute, ':',
   digitChar (t.second / 10), digitChar t.second]

/-- `datetime.datetime.utcnow().isoformat(sep=' ', timespec='seconds')`. -/
def isoformatSeconds (t : Timestamp) : String :=
  String.mk (isoChars t)

/-- Decimal digit test on characters. -/
def isDigit (c : Char) : Bool :=
  decide (Char.ofNat 48 ≤ c) && decide (c ≤ Char.ofNat 57)

/-- Recognizer for the character shape `YYYY-MM-DD HH:MM:SS`. -/
def tsShapeChars : List Char → Bool
  | [y1, y2, y3, y4, a, m1, m2, b, d1, d2, c, h1, h2, e, n1, n2, f, s1, s2] =>
      isDigit y1 && isDigit y2 && isDigit y3 && isDigit y4 && a == '-' &&
      isDigit m1 && isDigit m2 && b == '-' && isDigit d1 && isDigit d2 &&
      c == ' ' && isDigit h1 && isDigit h2 && e == ':' &&
      isDigit n1 && isDigit n2 && f == ':' && isDigit s1 && isDigit s2
  | _ => false

/-- A string is a second-precision timestamp in the shape
`YYYY-MM-DD HH:MM:SS`. -/
def matchesTimestampShape (s : String) : Bool :=
  tsShapeChars s.data

/-! ## Events service: route handlers -/

/-- The wire responses the events service route handlers return. -/
inductive EventsResponse where
  | envelope (d : EventsDict)
  | message (body : String) (status : Nat)
deriving DecidableEq

/-- Result of one events-service request: the handler outcome (`Except.error`
is an exception escaping the handler unhandled), the store state afterwards,
and the trace of store operations actually executed. -/
abbrev EventsResult := Except PyError EventsResponse × EventsStore × List StoreOp

/-- `GET /v1/` (`get_all_events`): `find({})` on the collection, projected
through `build_events_dict`; an unconfigured handle raises
`DBNotConnectedError` at the `.find` attribute access, which the handler
catches into the literal 500 message, with no store operation executed. -/
def get_all_events (store : EventsStore) : EventsResult :=
  match store with
  | none => (.ok (.message "Events database was undefined." 500), none, [])
  | some c =>
      (.ok (.envelope (build_events_dict c.docs)), some c, [.find .all])

/-- `GET /v1/search` (`search_event`): reads `request.args['name']`
(`BadRequestKeyError` caught into a 400 when absent), then
`create_index([('name', 'text')])`, then the text search; an unconfigured
handle raises at the `.create_index` attribute access, caught into the
literal 500 message. -/
def search_event (store : EventsStore) (args : List (String × String)) : EventsResult :=
  match lookupArg args "name" with
  | none => (.ok (.message "Event name was entered incorrectly." 400), store, [])
  | some event_name =>
      match store with
      | none => (.ok (.message "Events database was undefined." 500), none, [])
      | some c =>
          let c' := createIndexState c [("name", "text")]
          let events := c'.docs.filter (textMatches event_name)
          (.ok (.envelope (build_events_dict events)), some c',
           [.createIndex [("name", "text")], .find (.text event_name)])

/-- `POST /v1/add` (`add_event`): reads the four required form fields
(any absence raises `BadRequestKeyError`, caught into a 400 before anything
else runs), stamps the server clock through `build_event_info`, shapes the
document through the `Event` entity, and inserts it; an unconfigured handle
raises at the `.insert_one` attribute access, caught into the literal 500
message with no insert executed. -/
def add_event (store : EventsStore) (form : List (String × String))
    (now : Timestamp) : EventsResult :=
  match lookupArg form "event_name", lookupArg form "description",
        lookupArg form "author_id", lookupArg form "event_time" with
  | some name, some description, some author, some event_time =>
      let current_time := isoformatSeconds now
      let info := build_event_info
        [("name", Value.str name), ("description", Value.str description),
         ("author", Value.str author), ("event_time", Value.str event_time)]
        current_time
      let doc := eventDict info
      match store with
      | none => (.ok (.message "Events database was undefined." 500), none, [])
      | some c =>
          (.ok (.message "Event added." 201),
           some { c with docs := c.docs ++ [doc] }, [.insertOne doc])
  | _, _, _, _ => (.ok (.message "Event info was entered incorrectly." 400), store, [])

/-- `ObjectId(s)` on a path string succeeds exactly on a 24-character
hexadecimal string; otherwise `bson` raises `InvalidId`. -/
def objectIdValid (s : String) : Bool :=
  s.length == 24 && s.data.all (fun c =>
    c.isDigit || (decide (Char.ofNat 97 ≤ c) && decide (c ≤ Char.ofNat 102)) ||
    (decide (Char.ofNat 65 ≤ c) && decide (c ≤ Char.ofNat 70)))

/-- `PUT /v1/<event_id>` (`get_one_event`): Python resolves the `.find`
attribute before evaluating the argument, so an unconfigured handle raises
`DBNotConnectedError` (caught into the literal 500 message) before
`ObjectId(event_id)` is even constructed; with a configured handle an
invalid id raises `InvalidId`, which no `except` clause catches.  The found
documents are shaped through the entity once in the handler and once more
inside `build_events_dict`, as in the source. -/
def get_one_event (store : EventsStore) (event_id : String) : EventsResult :=
  match store with
  | none => (.ok (.message "Events database was undefined." 500), none, [])
  | some c =>
      if objectIdValid event_id then
        let found := c.docs.filter
          (fun d => lookupDoc d "_id" == some (Value.objectId event_id))
        let events := found.map eventDict
        (.ok (.envelope (build_events_dict events)), some c, [.find (.byId event_id)])
      else
        (.error (.invalidId event_id), some c, [])

/-! ## Users service -/

/-- A document of the users collection (spec section 3). -/
structure UserDoc where
  username : String
  name : String
  is_organizer : Bool
deriving DecidableEq

/-- The users collection. -/
abbrev UsersDb := List UserDoc

/-- A store operation executed against the users collection.  Both kinds
are reads. -/
inductive UsersOp where
  | countDocuments (username : String)
  | findByUsername (username : String)
deriving DecidableEq

/-- `DB.users.count_documents({'username': username})`. -/
def count_documents (db : UsersDb) (username : String) : Nat :=
  (db.filter (fun u => u.username == username)).length

/-- The cursor loop of `is_authorized_to_edit`: returns `False` at the first
matching user whose `is_organizer` flag is false, else `True`. -/
def checkCursor : List UserDoc → Bool
  | [] => true
  | user :: rest => if !user.is_organizer then false else checkCursor rest

/-- `is_authorized_to_edit(username)`: count the documents matching the
username; zero means not authorized; otherwise scan every matching document
and deny if any lacks the organizer flag. -/
def is_authorized_to_edit (db : UsersDb) (username : String) : Bool :=
  if count_documents db username = 0 then false
  else checkCursor (db.filter (fun u => u.username == username))

/-- The wire responses of the users service. -/
inductive UsersResponse where
  | errorJson (msg : String)
  | editAccess (b : Bool)
  | userObject (user_id : String) (username : String) (edit_access : Bool) (status : Nat)
deriving DecidableEq

/-- Result of one users-service request: handler outcome, users store state
afterwards, and the trace of store operations actually executed. -/
abbrev UsersResult := Except PyError UsersResponse × Option UsersDb × List UsersOp

/-- Modelled from the spec: the users service builds its client handle
unconditionally at startup with no unconfigured sentinel and no
`StoreUnavailable` handling; a handle that was never successfully
established (`none`) fails with a connection error only when the first
store operation is attempted. -/
def usersCount (store : Option UsersDb) (username : String) : Except PyError Nat :=
  match store with
  | none => .error .connectionFailure
  | some db => .ok (count_documents db username)

/-- `POST /v1/authorization` (`get_authorization`): reads the `user_id` form
field with `.get` (no exception on absence), then delegates to
`is_authorized_to_edit`, which always attempts `count_documents` and, when
the count is nonzero, `find`.  No clause converts a store failure into a
500 with a literal message: it escapes unhandled. -/
def get_authorization (store : Option UsersDb)
    (form : List (String × String)) : UsersResult :=
  match lookupArg form "user_id" with
  | none => (.ok (.errorJson "You must supply a \u0027user_id\u0027 POST parameter!"),
             store, [])
  | some user =>
      match store with
      | none => (.error .connectionFailure, none, [.countDocuments user])
      | some db =>
          if count_documents db user = 0 then
            (.ok (.editAccess false), some db, [.countDocuments user])
          else
            (.ok (.editAccess (is_authorized_to_edit db user)), some db,
             [.countDocuments user, .findByUsername user])

/-- The attribute names the Flask/werkzeug request object defines for
reading a JSON body: `get_json` and `json` exist; `getJSON` does not. -/
def requestAttrs : List String :=
  ["args", "form", "values", "data", "json", "get_json", "method", "headers"]

/-- Python attribute lookup on the request object: `none` models the
`AttributeError` raised for an undefined attribute name. -/
def requestGetAttr (n : String) : Option Unit :=
  if requestAttrs.contains n then some () else none

/-- `PUT /v1/` (`add_update_user`): the handler first evaluates
`request.getJSON()`, but the Flask request object defines `get_json`, not
`getJSON`, so the attribute lookup raises `AttributeError` before the rest
of the stub (validation and the canned dummy-user object) can run; the
handler has no `except` clause, so the error escapes unhandled. -/
def add_update_user (body : Option Doc) : Except PyError UsersResponse × List UsersOp :=
  match requestGetAttr "getJSON" with
  | none => (.error (.attributeError "getJSON"), [])
  | some _ =>
      match body with
      | none => (.ok (.errorJson "You must supply a valid user in the body"), [])
      | some _ => (.ok (.userObject "0" "Dummy User" false 201), [])

/-! ## Spec-side predicates -/

/-- Spec section 4.3: an envelope response carries a count equal to the
length of its list; non-envelope outcomes are unconstrained. -/
def envelopeCountOk : Except PyError EventsResponse → Prop
  | .ok (.envelope d) => d.num_events = d.events.length
  | _ => True

/-- Every field of the document is declared in the `Event` data model. -/
def declaredFieldsOnly (d : Doc) : Prop :=
  ∀ kv ∈ d, kv.1 ∈ eventFields

/-- Spec section 4.3: every document of an envelope response carries only
declared entity fields; non-envelope outcomes are unconstrained. -/
def envelopeFieldsOk : Except PyError EventsResponse → Prop
  | .ok (.envelope dct) => ∀ d ∈ dct.events, declaredFieldsOnly d
  | _ => True

/-! ## Helper lemmas -/

theorem checkCursor_eq_all (l : List UserDoc) :
    checkCursor l = l.all (fun u => u.is_organizer) := by
  induction l with
  | nil => rfl
  | cons u rest ih => cases hu : u.is_organizer <;> simp [checkCursor, hu, ih]

theorem isDigit_digitChar (n : Nat) : isDigit (digitChar n) = true := by
  have h : n % 10 < 10 := Nat.mod_lt _ (by decide)
  unfold digitChar
  revert h
  generalize n % 10 = m
  intro h
  interval_cases m <;> decide

theorem matchesTimestampShape_isoformatSeconds (t : Timestamp) :
    matchesTimestampShape (isoformatSeconds t) = true := by
  show tsShapeChars (isoChars t) = true
  simp [isoChars, tsShapeChars, isDigit_digitChar]

theorem declaredFieldsOnly_eventDict (d : Doc) : declaredFieldsOnly (eventDict d) := by
  intro kv hkv
  unfold eventDict at hkv
  rw [List.mem_filter] at hkv
  exact of_decide_eq_true hkv.2

theorem build_events_dict_fields (l : List Doc) :
    ∀ d ∈ (build_events_dict l).events, declaredFieldsOnly d := by
  intro d hd
  simp only [build_events_dict, List.mem_map] at hd
  obtain ⟨x, _, rfl⟩ := hd
  exact declaredFieldsOnly_eventDict x

/-! ## Claims -/

/-- C2: for every username, the authorization decision returns false when
zero user documents match that username, and otherwise returns the logical
AND of the `is_organizer` flag over every matching document. -/
theorem is_authorized_to_edit_spec (db : UsersDb) (username : String) :
    (count_documents db username = 0 → is_authorized_to_edit db username = false) ∧
    (count_documents db username ≠ 0 →
      is_authorized_to_edit db username =
        (db.filter (fun u => u.username == username)).all (fun u => u.is_organizer)) := by
  constructor
  · intro h
    simp [is_authorized_to_edit, h]
  · intro h
    simp [is_authorized_to_edit, h, checkCursor_eq_all]

/-- C2 witness: on a one-document collection whose entry has the organizer
flag, the existing username is authorized. -/
theorem is_authorized_to_edit_spec_witness :
    is_authorized_to_edit [⟨"cmei4444", "Carolyn Mei", true⟩] "cmei4444" = true := by
  have h := (is_authorized_to_edit_spec [⟨"cmei4444", "Carolyn Mei", true⟩]
    "cmei4444").2 (by decide)
  rw [h]
  decide

/-- C4: every envelope produced by the list-all, search, or get-one-by-id
operations has the shape `{'events': L, 'num_events': N}` with `N` the
length of `L`. -/
theorem envelope_num_events_eq_length (store : EventsStore)
    (args : List (String × String)) (event_id : String) :
    envelopeCountOk (get_all_events store).1 ∧
    envelopeCountOk (search_event store args).1 ∧
    envelopeCountOk (get_one_event store event_id).1 := by
  refine ⟨?_, ?_, ?_⟩
  · cases store <;> simp [get_all_events, envelopeCountOk, build_events_dict]
  · rcases h : lookupArg args "name" with _ | event_name
    · simp [search_event, h, envelopeCountOk]
    · cases store <;> simp [search_event, h, envelopeCountOk, build_events_dict]
  · cases store with
    | none => simp [get_one_event, envelopeCountOk]
    | some c =>
        by_cases h : objectIdValid event_id = true <;>
          simp [get_one_event, h, envelopeCountOk, build_events_dict]

/-- C8: every document of an envelope produced by the list-all, search, or
get-one-by-id operations has been round-tripped through the `Event`
entity's declared field set, so no undeclared field reaches the wire. -/
theorem events_responses_drop_undeclared_fields (store : EventsStore)
    (args : List (String × String)) (event_id : String) :
    envelopeFieldsOk (get_all_events store).1 ∧
    envelopeFieldsOk (search_event store args).1 ∧
    envelopeFieldsOk (get_one_event store event_id).1 := by
  refine ⟨?_, ?_, ?_⟩
  · cases store with
    | none => simp [get_all_events, envelopeFieldsOk]
    | some c =>
        simp only [get_all_events, envelopeFieldsOk]
        exact build_events_dict_fields c.docs
  · rcases h : lookupArg args "name" with _ | event_name
    · simp [search_event, h, envelopeFieldsOk]
    · cases store with
      | none => simp [search_event, h, envelopeFieldsOk]
      | some c =>
          simp only [search_event, h, envelopeFieldsOk]
          exact build_events_dict_fields _
  · cases store with
    | none => simp [get_one_event, envelopeFieldsOk]
    | some c =>
        by_cases h : objectIdValid event_id = true
        · simp only [get_one_event, h, if_true, envelopeFieldsOk]
          exact build_events_dict_fields _
        · simp [get_one_event, h, envelopeFieldsOk]

/-- C9: the authorization decision is read-only: for every store state and
request form, `get_authorization` leaves the users store unchanged (its
trace holds only the read operations `count_documents` and `find`). -/
theorem get_authorization_read_only (store : Option UsersDb)
    (form : List (String × String)) :
    (get_authorization store form).2.1 = store := by
  rcases h : lookupArg form "user_id" with _ | user
  · simp [get_authorization, h]
  · cases store with
    | none => simp [get_authorization, h]
    | some db =>
        by_cases hc : count_documents db user = 0 <;> simp [get_authorization, h, hc]

/-- C6 (code bug): every request to the add-or-update-user stub raises
`AttributeError` at `request.getJSON()` — the Flask request object defines
`get_json`, not `getJSON` — so the canned dummy-user object is never
returned; no store operation is attempted. -/
theorem add_update_user_raises_attribute_error (body : Option Doc) :
    add_update_user body = (.error (.attributeError "getJSON"), []) := rfl

/-- C7: text-index creation on the `name` field is executed before the text
search on every search invocation carrying a name, and index creation is
idempotent on the store state. -/
theorem search_event_creates_index_before_text_search :
    (∀ (c : EventsColl) (keys : List (String × String)),
      createIndexState (createIndexState c keys) keys = createIndexState c keys) ∧
    (∀ (c : EventsColl) (args : List (String × String)) (event_name : String),
      lookupArg args "name" = some event_name →
      (search_event (some c) args).2.2 =
        [.createIndex [("name", "text")], .find (.text event_name)]) := by
  constructor
  · intro c keys
    unfold createIndexState
    by_cases h : keys ∈ c.indexes
    · simp [h]
    · simp [h]
  · intro c args event_name h
    simp [search_event, h]

/-- C7 witness: a concrete search call's trace runs the index creation and
then the text search. -/
theorem search_event_creates_index_witness :
    (search_event (some ⟨[], []⟩) [("name", "party")]).2.2 =
      [.createIndex [("name", "text")], .find (.text "party")] :=
  search_event_creates_index_before_text_search.2 ⟨[], []⟩ [("name", "party")] "party" rfl

/-- C10 counterexample: on the invalid ObjectId string "not-a-hex-id" with
an unconfigured store handle, the get-one-by-id operation returns the 500
store-unavailable message — Python resolves the `.find` attribute (which
raises `DBNotConnectedError` on the sentinel) before evaluating
`ObjectId(event_id)` — contradicting the claim that every invalid id
raises an unhandled error rather than that 500 response. -/
theorem get_one_event_unconfigured_invalid_id_returns_500 :
    get_one_event none "not-a-hex-id" =
      (.ok (.message "Events database was undefined." 500), none, []) := rfl

/-- C10 (amended): with a configured store handle, every event_id that is
not a 24-character hexadecimal string makes the get-one-by-id operation
raise an unhandled `InvalidId` error during ObjectId construction, with no
store operation executed and neither a 200 envelope nor the 500
store-unavailable message returned. -/
theorem get_one_event_invalid_id_unhandled_error (c : EventsColl)
    (event_id : String) (h : objectIdValid event_id = false) :
    get_one_event (some c) event_id = (.error (.invalidId event_id), some c, []) := by
  simp [get_one_event, h]

/-- C10 witness: the concrete invalid id "xyz" on a configured empty store
raises the unhandled `InvalidId` error. -/
theorem get_one_event_invalid_id_witness :
    get_one_event (some ⟨[], []⟩) "xyz" = (.error (.invalidId "xyz"), some ⟨[], []⟩, []) :=
  get_one_event_invalid_id_unhandled_error ⟨[], []⟩ "xyz" (by decide)

/-- C5: whenever one of the four required form fields is absent, add-event
returns the 400 message, the store is unchanged, and no store operation
(in particular no insert) is executed. -/
theorem add_event_missing_field_400_no_insert (store : EventsStore)
    (form : List (String × String)) (now : Timestamp)
    (h : lookupArg form "event_name" = none ∨ lookupArg form "description" = none ∨
         lookupArg form "author_id" = none ∨ lookupArg form "event_time" = none) :
    add_event store form now =
      (.ok (.message "Event info was entered incorrectly." 400), store, []) := by
  rcases hn : lookupArg form "event_name" with _ | n <;>
    rcases hd : lookupArg form "description" with _ | d <;>
      rcases ha : lookupArg form "author_id" with _ | a <;>
        rcases ht : lookupArg form "event_time" with _ | t <;>
          first
            | (simp [add_event, hn, hd, ha, ht]; done)
            | (rcases h with h | h | h | h <;> simp only [hn, hd, ha, ht] at h <;>
                exact Option.noConfusion h)

/-- C5 witness: a concrete add-event form lacking `author_id` yields the 400
message with an empty trace and an unchanged store. -/
theorem add_event_missing_field_witness :
    add_event (some ⟨[], []⟩)
      [("event_name", "Launch"), ("description", "kickoff"),
       ("event_time", "2024-01-01T10:00:00")] ⟨2024, 1, 1, 10, 0, 0⟩ =
      (.ok (.message "Event info was entered incorrectly." 400), some ⟨[], []⟩, []) :=
  add_event_missing_field_400_no_insert _ _ _ (Or.inr (Or.inr (Or.inl rfl)))

/-- C3: for every valid add-event request, the inserted document's
`created_at` field is the server clock formatted `YYYY-MM-DD HH:MM:SS`
(second precision); the inserted document is the same whatever
`created_at` value the client supplies in the form, so no client value
ever becomes the stored `created_at`. -/
theorem add_event_created_at_server_generated
    (c : EventsColl) (form : List (String × String)) (now : Timestamp)
    (name descr auth time : String)
    (hn : lookupArg form "event_name" = some name)
    (hd : lookupArg form "description" = some descr)
    (ha : lookupArg form "author_id" = some auth)
    (ht : lookupArg form "event_time" = some time) :
    ∃ d : Doc,
      (add_event (some c) form now).2.2 = [.insertOne d] ∧
      lookupDoc d "created_at" = some (.str (isoformatSeconds now)) ∧
      (∀ v : String,
        (add_event (some c) (("created_at", v) :: form) now).2.2 = [.insertOne d]) ∧
      matchesTimestampShape (isoformatSeconds now) = true := by
  refine ⟨eventDict (build_event_info
      [("name", .str name), ("description", .str descr),
       ("author", .str auth), ("event_time", .str time)] (isoformatSeconds now)),
    ?_, ?_, ?_, matchesTimestampShape_isoformatSeconds now⟩
  · simp [add_event, hn, hd, ha, ht]
  · rfl
  · intro v
    have hn' : lookupArg (("created_at", v) :: form) "event_name" = some name := hn
    have hd' : lookupArg (("created_at", v) :: form) "description" = some descr := hd
    have ha' : lookupArg (("created_at", v) :: form) "author_id" = some auth := ha
    have ht' : lookupArg (("created_at", v) :: form) "event_time" = some time := ht
    simp [add_event, hn', hd', ha', ht']

/-- C3 witness: a concrete valid add-event request inserts a document whose
`created_at` is the formatted server clock and is unaffected by a
client-supplied `created_at` form field. -/
theorem add_event_created_at_witness :
    ∃ d : Doc,
      (add_event (some ⟨[], []⟩)
        [("event_name", "Launch"), ("description", "kickoff"),
         ("author_id", "u1"), ("event_time", "2024-01-01T10:00:00")]
        ⟨2024, 1, 1, 10, 0, 0⟩).2.2 = [.insertOne d] ∧
      lookupDoc d "created_at" =
        some (.str (isoformatSeconds ⟨2024, 1, 1, 10, 0, 0⟩)) ∧
      (∀ v : String,
        (add_event (some ⟨[], []⟩) (("created_at", v) ::
          [("event_name", "Launch"), ("description", "kickoff"),
           ("author_id", "u1"), ("event_time", "2024-01-01T10:00:00")])
          ⟨2024, 1, 1, 10, 0, 0⟩).2.2 = [.insertOne d]) ∧
      matchesTimestampShape (isoformatSeconds ⟨2024, 1, 1, 10, 0, 0⟩) = true :=
  add_event_created_at_server_generated ⟨[], []⟩
    [("event_name", "Launch"), ("description", "kickoff"),
     ("author_id", "u1"), ("event_time", "2024-01-01T10:00:00")]
    ⟨2024, 1, 1, 10, 0, 0⟩ "Launch" "kickoff" "u1" "2024-01-01T10:00:00"
    rfl rfl rfl rfl

/-- C1 counterexample: with the store handle never established, the users
authorization check on the concrete form `user_id=alice` does attempt a
store call (`count_documents` appears in the trace) and the failure escapes
the handler unhandled — there is no 500 response with the literal
unavailability message — contradicting the claim for the users route. -/
theorem users_authorization_unconfigured_attempts_store_call :
    get_authorization none [("user_id", "alice")] =
      (.error .connectionFailure, none, [.countDocuments "alice"]) := rfl

/-- C1 (amended): with the store handle never established, each events
route (list-all, search with a name, add with all fields, get-one-by-id)
returns the literal message "Events database was undefined." with status
500 and an empty trace (no store call attempted); the users authorization
check, by contrast, has no such handling: it attempts the count store call
and the failure escapes unhandled. -/
theorem events_routes_500_when_unconfigured :
    (get_all_events none =
      (.ok (.message "Events database was undefined." 500), none, [])) ∧
    (∀ (args : List (String × String)) (event_name : String),
      lookupArg args "name" = some event_name →
      search_event none args =
        (.ok (.message "Events database was undefined." 500), none, [])) ∧
    (∀ (form : List (String × String)) (now : Timestamp)
        (name descr auth time : String),
      lookupArg form "event_name" = some name →
      lookupArg form "description" = some descr →
      lookupArg form "author_id" = some auth →
      lookupArg form "event_time" = some time →
      add_event none form now =
        (.ok (.message "Events database was undefined." 500), none, [])) ∧
    (∀ event_id : String,
      get_one_event none event_id =
        (.ok (.message "Events database was undefined." 500), none, [])) ∧
    (∀ (form : List (String × String)) (user : String),
      lookupArg form "user_id" = some user →
      (get_authorization none form).1 = .error .connectionFailure ∧
      (get_authorization none form).2.2 = [.countDocuments user]) := by
  refine ⟨rfl, ?_, ?_, fun _ => rfl, ?_⟩
  · intro args event_name h
    simp [search_event, h]
  · intro form now name descr auth time hn hd ha ht
    simp [add_event, hn, hd, ha, ht]
  · intro form user h
    simp [get_authorization, h]

/-- C1 witness: concrete unconfigured-store requests — the search and add
routes return the literal 500 message with an empty trace, while the users
authorization check executes a count store call. -/
theorem events_routes_500_witness :
    search_event none [("name", "party")] =
      (.ok (.message "Events database was undefined." 500), none, []) ∧
    add_event none
      [("event_name", "Launch"), ("description", "kickoff"),
       ("author_id", "u1"), ("event_time", "2024-01-01T10:00:00")]
      ⟨2024, 1, 1, 10, 0, 0⟩ =
      (.ok (.message "Events database was undefined." 500), none, []) ∧
    (get_authorization none [("user_id", "alice")]).2.2 = [.countDocuments "alice"] :=
  ⟨events_routes_500_when_unconfigured.2.1 [("name", "party")] "party" rfl,
   events_routes_500_when_unconfigured.2.2.1
     [("event_name", "Launch"), ("description", "kickoff"),
      ("author_id", "u1"), ("event_time", "2024-01-01T10:00:00")]
     ⟨2024, 1, 1, 10, 0, 0⟩ "Launch" "kickoff" "u1" "2024-01-01T10:00:00"
     rfl rfl rfl rfl,
   (events_routes_500_when_unconfigured.2.2.2.2 [("user_id", "alice")] "alice" rfl).2⟩

end LargeEvents
